import Mathlib

/-!
Verification of the wmproxy excerpt: the `ProtClose` frame of the
multiplexing protocol (src/prot/close.rs) and the HTTP reverse-proxy
dispatcher `HttpConfig` (src/reverse/http.rs).

Buffers are modelled as lists of bytes (`List Nat`, each element a value
below 256 where it matters); a `Buf` cursor is modelled by returning the
remaining (unconsumed) suffix of the input list.  Machine integers
(`u32`) are modelled as `Nat` with explicit `% 256` / bounds where the
byte encoding needs them.
-/

/-- Frame kind byte of the multiplexing protocol.  `Unknown` keeps the raw
byte so that header decoding never fails on an unrecognised kind. -/
inductive ProtKind where
  | Open
  | Data
  | Close
  | Ping
  | Pong
  | Unknown (b : Nat)
deriving DecidableEq

/-- Modelled from the spec: the byte tag of each frame kind (the concrete
numbering is fixed once, as §6 requires; `ProtFrameHeader` is part of the
protocol module that is outside the given excerpt). -/
def ProtKind.toByte : ProtKind → Nat
  | .Open => 0
  | .Data => 1
  | .Close => 2
  | .Ping => 3
  | .Pong => 4
  | .Unknown b => b % 256

/-- Modelled from the spec: decoding a kind byte; unknown values must not
fail decode of the header itself. -/
def ProtKind.fromByte (b : Nat) : ProtKind :=
  if b = 0 then .Open
  else if b = 1 then .Data
  else if b = 2 then .Close
  else if b = 3 then .Ping
  else if b = 4 then .Pong
  else .Unknown b

/-- Flag bitset of a frame header; the zero value means no modifiers. -/
abbrev ProtFlag := Nat

/-- The zero flag value (`ProtFlag::zero()` in the source). -/
def ProtFlag.zero : ProtFlag := 0

/-- The `u8` value of a flag set. -/
def ProtFlag.toByte (f : ProtFlag) : Nat := (f : Nat) % 256

/-- Modelled from the spec: the fixed binary frame header
`[kind: 1 byte][flag: 1 byte][sock_map: 4 bytes][length: 4 bytes]`
(§6 wire format; the header type lives in the protocol module outside the
excerpt).  `sock_map` and `length` are unsigned 32-bit values. -/
structure ProtFrameHeader where
  kind : ProtKind
  flag : ProtFlag
  sock_map : Nat
  length : Nat

/-- Modelled from the spec: `ProtFrameHeader::new(kind, flag, sock_map)`
builds a header whose length is set afterwards from the payload size. -/
def ProtFrameHeader.new (kind : ProtKind) (flag : ProtFlag) (sock_map : Nat) :
    ProtFrameHeader :=
  { kind := kind, flag := flag, sock_map := sock_map, length := 0 }

/-- Big-endian 4-byte encoding of an unsigned 32-bit value. -/
def u32be (n : Nat) : List Nat :=
  [n / 16777216 % 256, n / 65536 % 256, n / 256 % 256, n % 256]

/-- The byte image of a frame header on the wire. -/
def ProtFrameHeader.toBytes (h : ProtFrameHeader) : List Nat :=
  [h.kind.toByte, h.flag.toByte] ++ u32be h.sock_map ++ u32be h.length

/-- Modelled from the spec: `ProtFrameHeader::encode` appends the header
bytes to the output buffer and returns the number of bytes written. -/
def ProtFrameHeader.encode (h : ProtFrameHeader) (buf : List Nat) :
    List Nat × Nat :=
  (buf ++ h.toBytes, h.toBytes.length)

/-- Modelled from the spec: parsing a frame header from the front of a
buffer; returns the header and the remaining bytes, or `none` when fewer
than a header's worth of bytes is available (truncated stream). -/
def ProtFrameHeader.parse : List Nat → Option (ProtFrameHeader × List Nat)
  | k :: f :: s3 :: s2 :: s1 :: s0 :: l3 :: l2 :: l1 :: l0 :: rest =>
      some (⟨ProtKind.fromByte k, f,
             ((s3 * 256 + s2) * 256 + s1) * 256 + s0,
             ((l3 * 256 + l2) * 256 + l1) * 256 + l0⟩, rest)
  | _ => none

/-- `ProtClose` (src/prot/close.rs): the payload-less connection-teardown
frame, keyed by `sock_map`. -/
structure ProtClose where
  sock_map : Nat

/-- `ProtClose::new`. -/
def ProtClose.new (sock_map : Nat) : ProtClose :=
  { sock_map := sock_map }

/-- `ProtClose::parse`: the body ignores the buffer entirely (the read of a
mode byte is commented out in the source) and builds the frame from the
header's `sock_map`; the returned list is the unconsumed remainder of the
input (the `Buf` cursor does not advance). -/
def ProtClose.parse (header : ProtFrameHeader) (buf : List Nat) :
    Except String (ProtClose × List Nat) :=
  .ok ({ sock_map := header.sock_map }, buf)

/-- `ProtClose::encode`: builds a header with kind `Close`, zero flags and
the frame's `sock_map`, forces `length = 0`, writes only the header, and
returns the accumulated byte count. -/
def ProtClose.encode (c : ProtClose) (buf : List Nat) :
    Except String (List Nat × Nat) :=
  let head : ProtFrameHeader :=
    { ProtFrameHeader.new ProtKind.Close ProtFlag.zero c.sock_map with
        length := 0 }
  let r := head.encode buf
  .ok (r.1, 0 + r.2)

/-- Bytes consumed by `ProtClose.parse`, measured through the cursor
model: input length minus remaining length. -/
def closeParseConsumed (header : ProtFrameHeader) (buf : List Nat) :
    Option Nat :=
  match ProtClose.parse header buf with
  | .ok (_, rest) => some (buf.length - rest.length)
  | .error _ => none

/-- Encode a `Close` frame for `sock_map` into an empty buffer, parse the
header back, then apply `ProtClose.parse`; yields the decoded frame's
`sock_map` together with the `length` field read off the wire. -/
def closeRoundTrip (sm : Nat) : Option (Nat × Nat) :=
  match (ProtClose.new sm).encode [] with
  | .ok (buf, _) =>
      match ProtFrameHeader.parse buf with
      | some (hdr, rest) =>
          match ProtClose.parse hdr rest with
          | .ok (c, _) => some (c.sock_map, hdr.length)
          | .error _ => none
      | none => none
  | .error _ => none

/-!
The HTTP reverse-proxy dispatcher (src/reverse/http.rs).

An inbound request carries an optional host, a path and a method.  A
response is modelled by its status, header list and body.  The backend
session halves (`tokio` mpsc sender/receiver) are modelled as oracles:
the sender exposes its `is_closed` flag, and the receiver exposes, for
the request just sent into the session, the value the next `recv` yields
(`none` models end-of-stream).  `deal_request`, `is_match_rule` and
`clone_only_hash` of a `Location` are external collaborators consumed
through their interface, so a `LocationConfig` carries them as fields;
the route key returned by `clone_only_hash` is modelled as a `Nat`
(structural identity).  The cache is an association list keyed by route
key, mirroring the `HashMap` of the source.
-/

/-- An inbound HTTP request: `get_host()` is optional, `path()` and
`method()` are the matching inputs. -/
structure Request where
  host : Option String
  path : String
  method : String

/-- An HTTP response: status code, header list and body. -/
structure Response where
  status : Nat
  headers : List (String × String)
  body : String
deriving DecidableEq

/-- The result of `Response::builder().status(503).body(b)` in the
source: a locally generated 503 with the given body. -/
def resp503 (body : String) : Response :=
  { status := 503, headers := [], body := body }

/-- The sender half of a cached backend session; `is_closed` is the value
`Sender::is_closed()` reports while this request handles the entry. -/
structure BackendSender where
  is_closed : Bool

/-- The receiver half of a cached backend session: `recv req` is what
`Receiver::recv()` yields after `req` was sent into the session (`none`
models end-of-stream: the backend is gone). -/
structure BackendReceiver where
  recv : Request → Option Response

/-- One cache entry: the `(Sender, Receiver)` pair of an open session. -/
abbrev SessionEntry := BackendSender × BackendReceiver

/-- The session cache `HashMap<LocationConfig, (Sender, Receiver)>`,
keyed by the route key that `clone_only_hash` produces. -/
abbrev Cache := List (Nat × SessionEntry)

/-- Lookup of a key in the cache (`HashMap::contains_key` / the value
that `remove` hands out). -/
def Cache.find : Cache → Nat → Option SessionEntry
  | [], _ => none
  | (k, e) :: rest, key => if k = key then some e else Cache.find rest key

/-- Removal of a key (`HashMap::remove`). -/
def Cache.erase : Cache → Nat → Cache
  | [], _ => []
  | (k, e) :: rest, key =>
      if k = key then Cache.erase rest key else (k, e) :: Cache.erase rest key

/-- Insertion of a key (`HashMap::insert`, replacing any old binding). -/
def Cache.insert (c : Cache) (key : Nat) (e : SessionEntry) : Cache :=
  (key, e) :: Cache.erase c key

/-- A configured location (external collaborator contract): its matching
rule, its route key (`clone_only_hash`, structural identity), and
`deal_request`, which establishes a new backend session and returns the
response for the current request plus the optional fresh channel
halves. -/
structure LocationConfig where
  is_match_rule : String → String → Bool
  clone_only_hash : Nat
  deal_request :
    Request → Except String (Response × Option BackendSender × Option BackendReceiver)

/-- A configured virtual host: its `server_name` and its locations. -/
structure ServerConfig where
  server_name : String
  location : List LocationConfig

/-- The HTTP reverse-proxy configuration (the `upstream` list plays no
role in dispatch). -/
structure HttpConfig where
  server : List ServerConfig

/-- Observable outcome of one dispatcher run: the response together with
the resulting cache and the number of `deal_request` calls made, or an
error, or a panic (an `unwrap` of `None`). -/
inductive Outcome where
  | ok (res : Response) (cache : Cache) (dealCalls : Nat)
  | err (msg : String)
  | panicked

/-- The cache-miss / closed-entry tail of the location branch: call
`deal_request`, propagate its error, `unwrap` both returned halves
(panicking when either is `None`), insert the fresh pair under the route
key and return the response. -/
def deal_path (req : Request) (l : LocationConfig) (cache : Cache) : Outcome :=
  match l.deal_request req with
  | .error e => .err e
  | .ok (res, os, orr) =>
      match os, orr with
      | some snd, some rcv =>
          .ok res (Cache.insert cache l.clone_only_hash (snd, rcv)) 1
      | _, _ => .panicked

/-- The body of the matched-location branch of `inner_operate_by_http`:
check the cache, check out the entry, use it if its sender is open
(reinserting it whether `recv` yields a response or end-of-stream),
otherwise fall through to `deal_path`. -/
def handle_location (req : Request) (l : LocationConfig) (cache : Cache) :
    Outcome :=
  match Cache.find cache l.clone_only_hash with
  | some cc =>
      let cache1 := Cache.erase cache l.clone_only_hash
      if cc.1.is_closed then deal_path req l cache1
      else
        match cc.2.recv req with
        | some res => .ok res (Cache.insert cache1 l.clone_only_hash cc) 0
        | none =>
            .ok (resp503 "already lose connection")
              (Cache.insert cache1 l.clone_only_hash cc) 0
  | none => deal_path req l cache

/-- The inner `for l in s.location.iter()` loop: the first location whose
rule matches is handled; with none, a 503 "unknow location to deal" is
returned. -/
def loop_locations (req : Request) (cache : Cache) :
    List LocationConfig → Outcome
  | [] => .ok (resp503 "unknow location to deal") cache 0
  | l :: rest =>
      if l.is_match_rule req.path req.method then handle_location req l cache
      else loop_locations req cache rest

/-- The outer `for (index, s) in http.server.iter().enumerate()` loop: the
first server whose name equals the host, or with an empty host, or at the
last index, is entered; an empty list yields a 503 "unknow location". -/
def loop_servers (req : Request) (host : String) (cache : Cache)
    (total idx : Nat) : List ServerConfig → Outcome
  | [] => .ok (resp503 "unknow location") cache 0
  | s :: rest =>
      if s.server_name = host ∨ host = "" ∨ idx = total - 1 then
        loop_locations req cache s.location
      else loop_servers req host cache total (idx + 1) rest

/-- The request's host as the dispatcher sees it:
`req.get_host().unwrap_or(String::new())`. -/
def Request.hostOrEmpty (req : Request) : String :=
  req.host.getD ""

/-- `HttpConfig::inner_operate_by_http`: route the request through the
configured servers and locations against the session cache. -/
def HttpConfig.inner_operate_by_http (req : Request) (cache : Cache)
    (http : HttpConfig) : Outcome :=
  loop_servers req req.hostOrEmpty cache http.server.length 0 http.server

/-- `HttpConfig::inner_operate`: the per-connection context (config plus
cache) is recovered from the request's extensions; with none present the
request fails with the `unknow data` extension error. -/
def HttpConfig.inner_operate (req : Request)
    (ext : Option (HttpConfig × Cache)) : Outcome :=
  match ext with
  | none => .err "unknow data"
  | some (http, cache) => HttpConfig.inner_operate_by_http req cache http

/-- Header-map removal of a name (all bindings of that name). -/
def erase_header : List (String × String) → String → List (String × String)
  | [], _ => []
  | (k, v) :: rest, key =>
      if k = key then erase_header rest key
      else (k, v) :: erase_header rest key

/-- Header-map lookup by name. -/
def header_get : List (String × String) → String → Option String
  | [], _ => none
  | (k, v) :: rest, key => if k = key then some v else header_get rest key

/-- `headers_mut().insert(k, v)` of the response: bind `k` to `v`,
replacing any previous binding; status and body are untouched. -/
def Response.insert_header (res : Response) (k v : String) : Response :=
  { res with headers := (k, v) :: erase_header res.headers k }

/-- `HttpConfig::operate`: run `inner_operate` and, on success, stamp the
`server: wmproxy` identification header onto the response. -/
def HttpConfig.operate (req : Request) (ext : Option (HttpConfig × Cache)) :
    Outcome :=
  match HttpConfig.inner_operate req ext with
  | .ok res cache n => .ok (res.insert_header "server" "wmproxy") cache n
  | .err e => .err e
  | .panicked => .panicked

/-- The number of `deal_request` calls observable in a successful
outcome. -/
def Outcome.deals : Outcome → Option Nat
  | .ok _ _ n => some n
  | _ => none

/-!
Specification-side route resolution, written from the spec's words
(§4.3): iterate virtual hosts in configured order; a host matches if its
name equals the request's host, or the request supplies no host, or it is
the last configured host; within the matched host, the first location
whose rule matches path and method is the route.  These definitions are
compared with the dispatcher's loops.
-/

/-- The spec's host selection: the first server whose name equals the
host, or with an empty host, or sitting at the last configured index. -/
def spec_select_server (host : String) (total idx : Nat) :
    List ServerConfig → Option ServerConfig
  | [] => none
  | s :: rest =>
      if s.server_name = host ∨ host = "" ∨ idx = total - 1 then some s
      else spec_select_server host total (idx + 1) rest

/-- Outcome of the spec's route resolution. -/
inductive RouteResult where
  | no_server
  | no_location
  | found (l : LocationConfig)

/-- The spec's route resolution: select the host, then the first location
whose rule accepts the request's path and method. -/
def spec_resolve (req : Request) (http : HttpConfig) : RouteResult :=
  match spec_select_server req.hostOrEmpty http.server.length 0 http.server with
  | none => .no_server
  | some s =>
      match s.location.find? (fun l => l.is_match_rule req.path req.method) with
      | none => .no_location
      | some l => .found l

/-!
Concrete fixtures used by the witnesses and by the catch-all routing
example of §8 of the spec.
-/

/-- A response standing for a fresh backend answer. -/
def resFresh : Response := { status := 200, headers := [], body := "fresh" }

/-- A response standing for a cached-session answer. -/
def resHit : Response := { status := 200, headers := [], body := "hit" }

/-- An open sender half. -/
def sndOpen : BackendSender := { is_closed := false }

/-- A closed sender half. -/
def sndClosed : BackendSender := { is_closed := true }

/-- A receiver that always reports end-of-stream. -/
def rcvNone : BackendReceiver := { recv := fun _ => none }

/-- A receiver that answers every request with `resHit`. -/
def rcvHit : BackendReceiver := { recv := fun _ => some resHit }

/-- A receiver that answers every request with `resFresh`. -/
def rcvFresh : BackendReceiver := { recv := fun _ => some resFresh }

/-- Location of the catch-all example behind host "a.com". -/
def locA : LocationConfig :=
  { is_match_rule := fun _ _ => true, clone_only_hash := 10,
    deal_request := fun _ => .error "backendA" }

/-- Location of the catch-all example behind host "b.com". -/
def locB : LocationConfig :=
  { is_match_rule := fun _ _ => true, clone_only_hash := 11,
    deal_request := fun _ => .error "backendB" }

/-- Location of the catch-all example behind the "*" host. -/
def locC : LocationConfig :=
  { is_match_rule := fun _ _ => true, clone_only_hash := 12,
    deal_request := fun _ => .error "backendC" }

/-- The spec's §8 example configuration: hosts "a.com", "b.com", "*". -/
def httpABC : HttpConfig :=
  { server := [{ server_name := "a.com", location := [locA] },
               { server_name := "b.com", location := [locB] },
               { server_name := "*", location := [locC] }] }

/-- The spec's §8 example request, with host "c.com". -/
def reqC : Request := { host := some "c.com", path := "/", method := "GET" }

/-- A server for "a.com" with no locations at all. -/
def serverNoLoc : ServerConfig := { server_name := "a.com", location := [] }

/-- A configuration whose only server has no locations. -/
def httpNoLoc : HttpConfig := { server := [serverNoLoc] }

/-- A request for host "a.com". -/
def reqA : Request := { host := some "a.com", path := "/x", method := "GET" }

/-- A location whose `deal_request` succeeds with both fresh halves. -/
def locD : LocationConfig :=
  { is_match_rule := fun _ _ => true, clone_only_hash := 42,
    deal_request := fun _ => .ok (resFresh, some sndOpen, some rcvFresh) }

/-- A configuration with the single host "d.com" holding `locD`. -/
def httpD : HttpConfig :=
  { server := [{ server_name := "d.com", location := [locD] }] }

/-- A request for host "d.com". -/
def reqD : Request := { host := some "d.com", path := "/", method := "GET" }

/-- A cache holding a closed entry under `locD`'s route key. -/
def cacheClosed : Cache := [(42, (sndClosed, rcvNone))]

/-- A cache holding an open entry whose receiver reports end-of-stream. -/
def cacheEos : Cache := [(42, (sndOpen, rcvNone))]

/-- A cache holding an open entry whose receiver answers with `resHit`. -/
def cacheHit : Cache := [(42, (sndOpen, rcvHit))]

/-- A location whose `deal_request` succeeds but returns `None` for both
channel halves. -/
def locNone : LocationConfig :=
  { is_match_rule := fun _ _ => true, clone_only_hash := 7,
    deal_request := fun _ => .ok (resFresh, none, none) }

/-- A configuration with the single host "n.com" holding `locNone`. -/
def httpN : HttpConfig :=
  { server := [{ server_name := "n.com", location := [locNone] }] }

/-- A request for host "n.com". -/
def reqN : Request := { host := some "n.com", path := "/", method := "GET" }

/-- A per-connection context carrying an empty configuration and an empty
cache. -/
def extEmpty : Option (HttpConfig × Cache) := some ({ server := [] }, [])

/-!
Helper lemmas relating the dispatcher's loops to the spec-side route
resolution, and small facts about the cache and header maps.
-/

theorem loop_locations_eq_find (req : Request) (cache : Cache)
    (ls : List LocationConfig) :
    loop_locations req cache ls =
      match ls.find? (fun l => l.is_match_rule req.path req.method) with
      | none => .ok (resp503 "unknow location to deal") cache 0
      | some l => handle_location req l cache := by
  induction ls with
  | nil => rfl
  | cons l rest ih =>
      simp only [loop_locations, List.find?]
      cases h : l.is_match_rule req.path req.method with
      | true => simp [h]
      | false => simp [h, ih]

theorem loop_servers_eq_select (req : Request) (host : String) (cache : Cache)
    (total idx : Nat) (ss : List ServerConfig) :
    loop_servers req host cache total idx ss =
      match spec_select_server host total idx ss with
      | none => .ok (resp503 "unknow location") cache 0
      | some s => loop_locations req cache s.location := by
  induction ss generalizing idx with
  | nil => rfl
  | cons s rest ih =>
      simp only [loop_servers, spec_select_server]
      by_cases h : s.server_name = host ∨ host = "" ∨ idx = total - 1
      · simp [h]
      · simp [h, ih]

theorem inner_eq_resolve (req : Request) (cache : Cache) (http : HttpConfig) :
    HttpConfig.inner_operate_by_http req cache http =
      match spec_resolve req http with
      | .no_server => .ok (resp503 "unknow location") cache 0
      | .no_location => .ok (resp503 "unknow location to deal") cache 0
      | .found l => handle_location req l cache := by
  unfold HttpConfig.inner_operate_by_http spec_resolve
  rw [loop_servers_eq_select]
  cases spec_select_server req.hostOrEmpty http.server.length 0 http.server with
  | none => rfl
  | some s =>
      dsimp only
      rw [loop_locations_eq_find]
      cases s.location.find? (fun l => l.is_match_rule req.path req.method) with
      | none => rfl
      | some l => rfl

theorem cache_find_insert_self (c : Cache) (k : Nat) (e : SessionEntry) :
    Cache.find (Cache.insert c k e) k = some e := by
  simp [Cache.insert, Cache.find]

theorem deal_path_panics_on_none (req : Request) (l : LocationConfig)
    (cache : Cache) (res : Response) (os : Option BackendSender)
    (orr : Option BackendReceiver)
    (hdeal : l.deal_request req = .ok (res, os, orr))
    (hnone : os = none ∨ orr = none) :
    deal_path req l cache = .panicked := by
  unfold deal_path
  rw [hdeal]
  rcases hnone with h | h
  · subst h; cases orr <;> rfl
  · subst h; cases os <;> rfl

theorem header_get_erase (hs : List (String × String)) (k key : String)
    (h : k ≠ key) :
    header_get (erase_header hs key) k = header_get hs k := by
  induction hs with
  | nil => rfl
  | cons p rest ih =>
      obtain ⟨pk, pv⟩ := p
      by_cases hp : pk = key
      · subst hp
        simp [erase_header, header_get, ih, Ne.symm h]
      · simp only [erase_header, if_neg hp, header_get]
        by_cases hk : pk = k
        · simp [hk]
        · simp [hk, ih]

/-!
The claims.
-/

/-- C1: encoding a `Close` frame for any 32-bit `sock_map` and decoding it
(header, then `ProtClose.parse`) yields the same `sock_map`, and the
`length` field on the wire is 0. -/
theorem close_roundtrip_sock_map (sm : Nat) (h : sm < 4294967296) :
    closeRoundTrip sm = some (sm, 0) := by
  simp only [closeRoundTrip, ProtClose.new, ProtClose.encode,
    ProtFrameHeader.new, ProtFrameHeader.encode, ProtFrameHeader.toBytes,
    ProtKind.toByte, ProtFlag.toByte, ProtFlag.zero, u32be,
    List.cons_append, List.nil_append, ProtFrameHeader.parse,
    ProtClose.parse]
  simp only [Nat.zero_mod, ProtKind.fromByte, if_pos rfl]
  norm_num
  omega

/-- C1 witness: concrete instantiation at `sock_map = 3000000000`. -/
theorem close_roundtrip_sock_map_witness :
    3000000000 < 4294967296 ∧ closeRoundTrip 3000000000 = some (3000000000, 0) :=
  ⟨by norm_num, close_roundtrip_sock_map 3000000000 (by norm_num)⟩

/-- C2: `ProtClose.encode` writes exactly one frame header — kind `Close`,
zero flags, the frame's `sock_map`, length 0 — with no payload bytes after
it, and returns the header's encoded size. -/
theorem close_encode_header_only (c : ProtClose) (buf : List Nat) :
    ∃ hdr : ProtFrameHeader,
      hdr.kind = ProtKind.Close ∧ hdr.flag = ProtFlag.zero ∧
      hdr.sock_map = c.sock_map ∧ hdr.length = 0 ∧
      c.encode buf = .ok (buf ++ hdr.toBytes, hdr.toBytes.length) :=
  ⟨⟨ProtKind.Close, ProtFlag.zero, c.sock_map, 0⟩, rfl, rfl, rfl, rfl, rfl⟩

/-- C3 counterexample: for a header declaring `length = 1` over the
one-byte buffer `[7]`, `ProtClose.parse` consumes 0 bytes, not the declared
1 byte — the claim that parse consumes exactly the declared length fails. -/
theorem close_parse_nonzero_length_cex :
    closeParseConsumed ⟨ProtKind.Close, ProtFlag.zero, 1, 1⟩ [7] = some 0 ∧
    (ProtFrameHeader.mk ProtKind.Close ProtFlag.zero 1 1).length = 1 ∧
    (0 : Nat) ≠ 1 :=
  ⟨rfl, rfl, by decide⟩

/-- C3 amended: `ProtClose.parse` consumes zero bytes from the buffer for
every header; since every Close frame written by `encode` declares
`length = 0`, parse consumes exactly the declared length whenever the
header declares length 0. -/
theorem close_parse_consumes_declared_when_zero (hdr : ProtFrameHeader)
    (buf : List Nat) :
    closeParseConsumed hdr buf = some 0 ∧
    (hdr.length = 0 → closeParseConsumed hdr buf = some hdr.length) := by
  have h0 : closeParseConsumed hdr buf = some 0 := by
    simp [closeParseConsumed, ProtClose.parse]
  exact ⟨h0, fun hz => by rw [hz]; exact h0⟩

/-- C3 witness: concrete instantiation at a zero-length header. -/
theorem close_parse_consumes_declared_when_zero_witness :
    closeParseConsumed ⟨ProtKind.Close, ProtFlag.zero, 5, 0⟩ [9, 9] = some 0 ∧
    (ProtFrameHeader.mk ProtKind.Close ProtFlag.zero 5 0).length = 0 ∧
    closeParseConsumed ⟨ProtKind.Close, ProtFlag.zero, 5, 0⟩ [9, 9] =
      some (ProtFrameHeader.mk ProtKind.Close ProtFlag.zero 5 0).length :=
  ⟨(close_parse_consumes_declared_when_zero _ _).1, rfl,
   (close_parse_consumes_declared_when_zero _ _).2 rfl⟩

/-- C4: the dispatcher selects the first server in configured order whose
name equals the request's host, or for which the host is empty, or which
is last (catch-all), and within it the first location whose rule matches;
in particular, for hosts "a.com", "b.com", "*" and a request with host
"c.com", the catch-all server's location is the one evaluated (only its
backend is reached). -/
theorem inner_operate_route_resolution :
    (∀ (req : Request) (cache : Cache) (http : HttpConfig),
      HttpConfig.inner_operate_by_http req cache http =
        match spec_resolve req http with
        | .no_server => .ok (resp503 "unknow location") cache 0
        | .no_location => .ok (resp503 "unknow location to deal") cache 0
        | .found l => handle_location req l cache) ∧
    spec_resolve reqC httpABC = .found locC ∧
    HttpConfig.inner_operate_by_http reqC [] httpABC = .err "backendC" :=
  ⟨inner_eq_resolve, rfl, rfl⟩

/-- C5 counterexample: with one server "a.com" carrying no locations and
a request for "a.com", the dispatcher's 503 body is
"unknow location to deal" (sic), not the claimed
"unknown location to deal". -/
theorem no_match_body_cex :
    HttpConfig.inner_operate_by_http reqA [] httpNoLoc =
      .ok (resp503 "unknow location to deal") [] 0 ∧
    resp503 "unknow location to deal" ≠ resp503 "unknown location to deal" :=
  ⟨rfl, by decide⟩

/-- C5 amended: with a matched server but no matching location the
dispatcher returns Ok with a 503 whose body is "unknow location to deal";
with an empty server list it returns Ok with a 503 whose body is
"unknow location"; neither path errors (nor, being a total function,
panics or hangs). -/
theorem no_match_503_bodies (req : Request) (cache : Cache)
    (http : HttpConfig) :
    (http.server = [] →
      HttpConfig.inner_operate_by_http req cache http =
        .ok (resp503 "unknow location") cache 0) ∧
    (∀ s, spec_select_server req.hostOrEmpty http.server.length 0
        http.server = some s →
      (∀ l ∈ s.location, l.is_match_rule req.path req.method = false) →
      HttpConfig.inner_operate_by_http req cache http =
        .ok (resp503 "unknow location to deal") cache 0) := by
  constructor
  · intro h
    unfold HttpConfig.inner_operate_by_http
    rw [h]
    rfl
  · intro s hsel hno
    rw [inner_eq_resolve]
    unfold spec_resolve
    rw [hsel]
    dsimp only
    have hfind : s.location.find?
        (fun l => l.is_match_rule req.path req.method) = none := by
      apply List.find?_eq_none.mpr
      intro l hl
      simp [hno l hl]
    rw [hfind]

/-- C5 witness: both amended branches at concrete configurations. -/
theorem no_match_503_bodies_witness :
    HttpConfig.inner_operate_by_http reqA [] { server := [] } =
      .ok (resp503 "unknow location") [] 0 ∧
    spec_select_server reqA.hostOrEmpty httpNoLoc.server.length 0
      httpNoLoc.server = some serverNoLoc ∧
    HttpConfig.inner_operate_by_http reqA [] httpNoLoc =
      .ok (resp503 "unknow location to deal") [] 0 :=
  ⟨(no_match_503_bodies reqA [] { server := [] }).1 rfl, rfl,
   (no_match_503_bodies reqA [] httpNoLoc).2 serverNoLoc rfl
     (by simp [serverNoLoc])⟩

/-- C6: when the cached entry under the route key reports a closed sender,
the dispatcher does not use the stale session: the entry is removed,
`deal_request` runs exactly once, the fresh pair is inserted under the
same key, and `deal_request`'s response is returned. -/
theorem closed_entry_reconnect (req : Request) (cache : Cache)
    (http : HttpConfig) (l : LocationConfig) (cc : SessionEntry)
    (res : Response) (snd : BackendSender) (rcv : BackendReceiver)
    (hroute : spec_resolve req http = .found l)
    (hfind : Cache.find cache l.clone_only_hash = some cc)
    (hclosed : cc.1.is_closed = true)
    (hdeal : l.deal_request req = .ok (res, some snd, some rcv)) :
    HttpConfig.inner_operate_by_http req cache http =
      .ok res (Cache.insert (Cache.erase cache l.clone_only_hash)
        l.clone_only_hash (snd, rcv)) 1 := by
  rw [inner_eq_resolve, hroute]
  simp [handle_location, hfind, hclosed, deal_path, hdeal]

/-- C6 witness: a closed cached entry next to a fresh backend. -/
theorem closed_entry_reconnect_witness :
    spec_resolve reqD httpD = .found locD ∧
    Cache.find cacheClosed locD.clone_only_hash = some (sndClosed, rcvNone) ∧
    sndClosed.is_closed = true ∧
    locD.deal_request reqD = .ok (resFresh, some sndOpen, some rcvFresh) ∧
    HttpConfig.inner_operate_by_http reqD cacheClosed httpD =
      .ok resFresh (Cache.insert (Cache.erase cacheClosed locD.clone_only_hash)
        locD.clone_only_hash (sndOpen, rcvFresh)) 1 :=
  ⟨rfl, rfl, rfl, rfl,
   closed_entry_reconnect reqD cacheClosed httpD locD (sndClosed, rcvNone)
     resFresh sndOpen rcvFresh rfl rfl rfl rfl⟩

/-- C7: when the checked-out open session's receiver reports
end-of-stream, the dispatcher reinserts the entry under the same key and
returns Ok with a 503 whose body is "already lose connection", calling
`deal_request` zero times. -/
theorem eos_reinsert_503 (req : Request) (cache : Cache) (http : HttpConfig)
    (l : LocationConfig) (cc : SessionEntry)
    (hroute : spec_resolve req http = .found l)
    (hfind : Cache.find cache l.clone_only_hash = some cc)
    (hopen : cc.1.is_closed = false)
    (hrecv : cc.2.recv req = none) :
    HttpConfig.inner_operate_by_http req cache http =
      .ok (resp503 "already lose connection")
        (Cache.insert (Cache.erase cache l.clone_only_hash)
          l.clone_only_hash cc) 0 := by
  rw [inner_eq_resolve, hroute]
  simp [handle_location, hfind, hopen, hrecv]

/-- C7 witness: an open cached entry whose receiver is exhausted. -/
theorem eos_reinsert_503_witness :
    spec_resolve reqD httpD = .found locD ∧
    Cache.find cacheEos locD.clone_only_hash = some (sndOpen, rcvNone) ∧
    sndOpen.is_closed = false ∧
    rcvNone.recv reqD = none ∧
    HttpConfig.inner_operate_by_http reqD cacheEos httpD =
      .ok (resp503 "already lose connection")
        (Cache.insert (Cache.erase cacheEos locD.clone_only_hash)
          locD.clone_only_hash (sndOpen, rcvNone)) 0 :=
  ⟨rfl, rfl, rfl, rfl,
   eos_reinsert_503 reqD cacheEos httpD locD (sndOpen, rcvNone)
     rfl rfl rfl rfl⟩

/-- C8: on the success path the checked-out entry is reinserted under the
same key and the received response returned with zero `deal_request`
calls; and for two sequential requests on the same route key starting
from a miss, with the first `deal_request` succeeding and the session
remaining open, `deal_request` runs once on the first request and zero
times on the second. -/
theorem session_reuse :
    (∀ (req : Request) (cache : Cache) (http : HttpConfig)
        (l : LocationConfig) (cc : SessionEntry) (res : Response),
      spec_resolve req http = .found l →
      Cache.find cache l.clone_only_hash = some cc →
      cc.1.is_closed = false →
      cc.2.recv req = some res →
      HttpConfig.inner_operate_by_http req cache http =
        .ok res (Cache.insert (Cache.erase cache l.clone_only_hash)
          l.clone_only_hash cc) 0) ∧
    (∀ (req1 req2 : Request) (cache0 : Cache) (http : HttpConfig)
        (l : LocationConfig) (res1 : Response) (snd : BackendSender)
        (rcv : BackendReceiver),
      spec_resolve req1 http = .found l →
      spec_resolve req2 http = .found l →
      Cache.find cache0 l.clone_only_hash = none →
      l.deal_request req1 = .ok (res1, some snd, some rcv) →
      snd.is_closed = false →
      HttpConfig.inner_operate_by_http req1 cache0 http =
        .ok res1 (Cache.insert cache0 l.clone_only_hash (snd, rcv)) 1 ∧
      Outcome.deals (HttpConfig.inner_operate_by_http req2
        (Cache.insert cache0 l.clone_only_hash (snd, rcv)) http) = some 0) := by
  constructor
  · intro req cache http l cc res hroute hfind hopen hrecv
    rw [inner_eq_resolve, hroute]
    simp [handle_location, hfind, hopen, hrecv]
  · intro req1 req2 cache0 http l res1 snd rcv h1 h2 hmiss hdeal hopen
    constructor
    · rw [inner_eq_resolve, h1]
      simp [handle_location, hmiss, deal_path, hdeal]
    · rw [inner_eq_resolve, h2]
      have hfind1 : Cache.find (Cache.insert cache0 l.clone_only_hash
          (snd, rcv)) l.clone_only_hash = some (snd, rcv) :=
        cache_find_insert_self _ _ _
      cases hr : rcv.recv req2 with
      | some r => simp [handle_location, hfind1, hopen, hr, Outcome.deals]
      | none => simp [handle_location, hfind1, hopen, hr, Outcome.deals]

/-- C8 witness: a cache hit, and a miss followed by a reuse. -/
theorem session_reuse_witness :
    HttpConfig.inner_operate_by_http reqD cacheHit httpD =
      .ok resHit (Cache.insert (Cache.erase cacheHit locD.clone_only_hash)
        locD.clone_only_hash (sndOpen, rcvHit)) 0 ∧
    HttpConfig.inner_operate_by_http reqD [] httpD =
      .ok resFresh (Cache.insert [] locD.clone_only_hash
        (sndOpen, rcvFresh)) 1 ∧
    Outcome.deals (HttpConfig.inner_operate_by_http reqD
      (Cache.insert [] locD.clone_only_hash (sndOpen, rcvFresh)) httpD) =
      some 0 :=
  ⟨session_reuse.1 reqD cacheHit httpD locD (sndOpen, rcvHit) resHit
     rfl rfl rfl rfl,
   (session_reuse.2 reqD reqD [] httpD locD resFresh sndOpen rcvFresh
     rfl rfl rfl rfl rfl).1,
   (session_reuse.2 reqD reqD [] httpD locD resFresh sndOpen rcvFresh
     rfl rfl rfl rfl rfl).2⟩

/-- C9: whenever `inner_operate` yields a response, `operate` returns that
response with the `server: wmproxy` header stamped on: the header reads
"wmproxy", status and body are unchanged, and every other header name
resolves as before. -/
theorem operate_adds_server_header (req : Request)
    (ext : Option (HttpConfig × Cache)) (res : Response) (cache : Cache)
    (n : Nat) (h : HttpConfig.inner_operate req ext = .ok res cache n) :
    HttpConfig.operate req ext =
      .ok (res.insert_header "server" "wmproxy") cache n ∧
    header_get (res.insert_header "server" "wmproxy").headers "server" =
      some "wmproxy" ∧
    (res.insert_header "server" "wmproxy").status = res.status ∧
    (res.insert_header "server" "wmproxy").body = res.body ∧
    ∀ k, k ≠ "server" →
      header_get (res.insert_header "server" "wmproxy").headers k =
        header_get res.headers k := by
  refine ⟨?_, ?_, rfl, rfl, ?_⟩
  · unfold HttpConfig.operate
    rw [h]
  · simp [Response.insert_header, header_get]
  · intro k hk
    have hks : ("server" : String) ≠ k := fun e => hk e.symm
    simp only [Response.insert_header, header_get, if_neg hks]
    exact header_get_erase _ _ _ hk

/-- C9 witness: the 503 route-miss response gains the server header. -/
theorem operate_adds_server_header_witness :
    HttpConfig.inner_operate reqA extEmpty =
      .ok (resp503 "unknow location") [] 0 ∧
    HttpConfig.operate reqA extEmpty =
      .ok ((resp503 "unknow location").insert_header "server" "wmproxy")
        [] 0 ∧
    header_get ((resp503 "unknow location").insert_header "server"
      "wmproxy").headers "server" = some "wmproxy" ∧
    header_get ((resp503 "unknow location").insert_header "server"
      "wmproxy").headers "x" =
      header_get (resp503 "unknow location").headers "x" :=
  ⟨rfl,
   (operate_adds_server_header reqA extEmpty (resp503 "unknow location")
     [] 0 rfl).1,
   (operate_adds_server_header reqA extEmpty (resp503 "unknow location")
     [] 0 rfl).2.1,
   (operate_adds_server_header reqA extEmpty (resp503 "unknow location")
     [] 0 rfl).2.2.2.2 "x" (by decide)⟩

/-- C10: on the miss-or-closed path, when `deal_request` succeeds but
returns `None` for the sender or the receiver, the dispatcher panics (the
unconditional `unwrap` of the two halves). -/
theorem deal_request_none_panics (req : Request) (cache : Cache)
    (http : HttpConfig) (l : LocationConfig) (res : Response)
    (os : Option BackendSender) (orr : Option BackendReceiver)
    (hroute : spec_resolve req http = .found l)
    (hmiss : Cache.find cache l.clone_only_hash = none ∨
      ∃ cc, Cache.find cache l.clone_only_hash = some cc ∧
        cc.1.is_closed = true)
    (hdeal : l.deal_request req = .ok (res, os, orr))
    (hnone : os = none ∨ orr = none) :
    HttpConfig.inner_operate_by_http req cache http = .panicked := by
  rw [inner_eq_resolve, hroute]
  rcases hmiss with hm | ⟨cc, hm, hc⟩
  · simp only [handle_location, hm]
    exact deal_path_panics_on_none req l cache res os orr hdeal hnone
  · simp [handle_location, hm, hc,
      deal_path_panics_on_none req l (Cache.erase cache l.clone_only_hash)
        res os orr hdeal hnone]

/-- C10 witness: a fresh `deal_request` returning no channel halves. -/
theorem deal_request_none_panics_witness :
    spec_resolve reqN httpN = .found locNone ∧
    Cache.find [] locNone.clone_only_hash = none ∧
    locNone.deal_request reqN = .ok (resFresh, none, none) ∧
    HttpConfig.inner_operate_by_http reqN [] httpN = .panicked :=
  ⟨rfl, rfl, rfl,
   deal_request_none_panics reqN [] httpN locNone resFresh none none rfl
     (Or.inl rfl) rfl (Or.inl rfl)⟩
